import Mathlib

/-
Verification of the `bird` CLI follow/unfollow commands.

The repository has two command modules:
  * `src/unnamed/part_000` — `registerFollowCommand`, the batch-capable
    `follow <user-id-or-handle...> [--json]` command;
  * `src/src/commands/follow.ts` — `registerFollowCommands`, the
    single-target `follow` and `unfollow` commands and their shared
    `resolveUserId` helper.

The external collaborators (credential resolution, `normalizeHandle`, the
`TwitterClient` network methods) are modelled as parameters (`CredResult`,
`NetEnv`).  Every observable action of a command handler — lines written to
stdout / stderr, calls into `normalizeHandle` and the network client, the
inter-target sleep — is recorded as an `Event` in a trace, and `process.exit`
codes are modelled as the returned `exitCode` (a handler that falls off the
end exits 0).
-/

namespace Bird

/-- JavaScript truthiness of an optional string: `undefined` and `""` are
falsy, every other string is truthy. -/
def optTruthy : Option String → Bool
  | none => false
  | some s => s ≠ ""

/-- JavaScript string interpolation of an optional string: `undefined`
renders as `"undefined"`. -/
def optShow : Option String → String
  | none => "undefined"
  | some s => s

/-- The test `/^\d+$/.test input` (part_000 line 33, follow.ts line 12):
nonempty and all characters are decimal digits. -/
def isNumericId (s : String) : Bool :=
  !s.isEmpty && s.toList.all Char.isDigit

/-- Session cookies as resolved by the external credential resolver. -/
structure Cookies where
  authToken : Option String
  ct0 : Option String
deriving Repr, DecidableEq

/-- Result of `ctx.resolveCredentialsFromOptions(opts)`. -/
structure CredResult where
  cookies : Cookies
  warnings : List String
deriving Repr, DecidableEq

/-- Result of `client.getUserIdByUsername(handle)`. -/
structure LookupResult where
  success : Bool
  userId : Option String
  username : Option String
  error : Option String
deriving Repr, DecidableEq

/-- Result of a follow / unfollow mutation call. -/
structure MutationResult where
  success : Bool
  username : Option String
  error : Option String
deriving Repr, DecidableEq

/-- The external collaborators: `normalizeHandle` and the `TwitterClient`
methods (called `follow`/`unfollow` in follow.ts and `followUser` in
part_000; one field serves both modules). -/
structure NetEnv where
  normalizeHandle : String → Option String
  getUserIdByUsername : String → LookupResult
  followUser : String → MutationResult
  unfollowUser : String → MutationResult

/-- One record of the batch report's `results` array (part_000 line 28). -/
structure ResultRecord where
  input : String
  userId : Option String
  success : Bool
  error : Option String
deriving Repr, DecidableEq

/-- Observable actions of a command handler, in program order. -/
inductive Event where
  /-- a `console.log` progress line (stdout) -/
  | outLine (s : String)
  /-- a `console.error` line (stderr) -/
  | errLine (s : String)
  /-- `console.log(JSON.stringify({ results, failures }, null, 2))` -/
  | outReport (results : List ResultRecord) (failures : Nat)
  /-- a call to `normalizeHandle input` -/
  | normCall (input : String)
  /-- a network call `client.getUserIdByUsername handle` -/
  | lookupCall (handle : String)
  /-- a network call `client.followUser userId` -/
  | followCall (userId : String)
  /-- a network call `client.unfollowUser userId` -/
  | unfollowCall (userId : String)
  /-- `await new Promise(resolve => setTimeout(resolve, ms))` -/
  | delayMs (ms : Nat)
deriving Repr, DecidableEq

/-- Events that are calls into `normalizeHandle` or the user lookup. -/
def isResolutionEvent : Event → Bool
  | Event.normCall _ => true
  | Event.lookupCall _ => true
  | _ => false

/-- Events that are network calls. -/
def isNetworkEvent : Event → Bool
  | Event.lookupCall _ => true
  | Event.followCall _ => true
  | Event.unfollowCall _ => true
  | _ => false

/-- Progress lines on stdout. -/
def isProgressLine : Event → Bool
  | Event.outLine _ => true
  | _ => false

/-- The aggregate JSON document on stdout. -/
def isReportEvent : Event → Bool
  | Event.outReport _ _ => true
  | _ => false

/-- Sleep events. -/
def isDelayEvent : Event → Bool
  | Event.delayMs _ => true
  | _ => false

/-- Number of sleeps in a trace. -/
def countDelays (evts : List Event) : Nat :=
  evts.countP isDelayEvent

/-- The trailing rate-limit sleep of the batch loop body
(part_000 lines 80–83): executed only when more than one target was
supplied (`multi`). -/
def delayEvts (multi : Bool) : List Event :=
  if multi then [Event.delayMs 500] else []

/-- Both cookies present and nonempty; the batch and single handlers abort
when this is false (part_000 lines 22–25, follow.ts lines 47–50). -/
def credsOk (cred : CredResult) : Bool :=
  optTruthy cred.cookies.authToken && optTruthy cred.cookies.ct0

/-- The `warn`-prefixed stderr lines printed for credential warnings. -/
def warnEvents (cred : CredResult) (p : String → String) : List Event :=
  cred.warnings.map (fun w => Event.errLine (p "warn" ++ w))

/-- The follow attempt of the batch loop (part_000 lines 66–78): one
`followUser` call, then a progress or error line unless `--json`. -/
def followAttempt (env : NetEnv) (p : String → String) (json : Bool)
    (displayName userId : String) (isUserIdFlag : Bool) :
    List Event × ResultRecord :=
  let r := env.followUser userId
  if r.success then
    (Event.followCall userId ::
       (if json then [] else
         [Event.outLine (p "ok" ++ "Followed " ++ displayName ++
            (if isUserIdFlag then "" else " (ID: " ++ userId ++ ")"))]),
     { input := displayName, userId := some userId, success := true,
       error := none })
  else
    (Event.followCall userId ::
       (if json then [] else
         [Event.errLine (p "err" ++ "Failed to follow " ++ displayName ++
            ": " ++ optShow r.error)]),
     { input := displayName, userId := some userId, success := false,
       error := r.error })

/-- One iteration of the batch loop over `userIdOrHandles`
(part_000 lines 31–84).  Returns the events of the iteration and the record
pushed onto `results`.  The two `continue` paths (invalid handle, failed
lookup) skip the trailing sleep; the follow-attempt path reaches it. -/
def processTarget (env : NetEnv) (p : String → String) (json multi : Bool)
    (input : String) : List Event × ResultRecord :=
  if isNumericId input then
    ((followAttempt env p json input input true).1 ++ delayEvts multi,
     (followAttempt env p json input input true).2)
  else
    match env.normalizeHandle input with
    | none =>
        (Event.normCall input ::
           (if json then [] else
             [Event.errLine (p "err" ++ "Invalid handle: " ++ input)]),
         { input := input, userId := none, success := false,
           error := some "Invalid handle format" })
    | some handle =>
        let lk := env.getUserIdByUsername handle
        if !lk.success || !optTruthy lk.userId then
          ([Event.normCall input, Event.lookupCall handle] ++
             (if json then [] else
               [Event.errLine (p "err" ++ "Failed to find user @" ++ handle ++
                  ": " ++ lk.error.getD "User not found")]),
           { input := "@" ++ handle, userId := none, success := false,
             error := some (lk.error.getD "User not found") })
        else
          ([Event.normCall input, Event.lookupCall handle] ++
             (followAttempt env p json ("@" ++ handle) (lk.userId.getD "")
                false).1 ++ delayEvts multi,
           (followAttempt env p json ("@" ++ handle) (lk.userId.getD "")
              false).2)

/-- Accumulated state of the batch loop: trace, `results`, `failures`. -/
structure BatchOut where
  events : List Event
  results : List ResultRecord
  failures : Nat
deriving Repr, DecidableEq

/-- The batch loop of part_000 lines 31–84 over the whole input list. -/
def runBatch (env : NetEnv) (p : String → String) (json multi : Bool) :
    List String → BatchOut
  | [] => ⟨[], [], 0⟩
  | input :: rest =>
      let step := processTarget env p json multi input
      let o := runBatch env p json multi rest
      ⟨step.1 ++ o.events, step.2 :: o.results,
       (if step.2.success then 0 else 1) + o.failures⟩

/-- Trace and exit code of a command handler. -/
structure CmdOut where
  events : List Event
  exitCode : Nat
deriving Repr, DecidableEq

/-- The batch `follow` command handler of `src/unnamed/part_000`
(`registerFollowCommand`, lines 12–93): print warnings, check credentials
(exit 1 when missing), run the batch loop, print the aggregate JSON document
when `--json`, exit 1 iff `failures > 0`. -/
def registerFollowCommand (cred : CredResult) (env : NetEnv)
    (p : String → String) (inputs : List String) (json : Bool) : CmdOut :=
  if !optTruthy cred.cookies.authToken || !optTruthy cred.cookies.ct0 then
    ⟨warnEvents cred p ++
       [Event.errLine (p "err" ++ "Missing required credentials")], 1⟩
  else
    let o := runBatch env p json (decide (inputs.length > 1)) inputs
    ⟨warnEvents cred p ++ o.events ++
       (if json then [Event.outReport o.results o.failures] else []),
     if o.failures > 0 then 1 else 0⟩

/-- Resolution result of follow.ts `resolveUserId`. -/
structure Resolved where
  userId : String
  username : Option String
deriving Repr, DecidableEq

/-- `resolveUserId` of `src/src/commands/follow.ts` (lines 6–30): numeric
fast path, otherwise normalize then look up; `null` (here `none`) on invalid
handle or failed lookup, with an error line printed. -/
def resolveUserId (env : NetEnv) (p : String → String)
    (usernameOrId : String) : List Event × Option Resolved :=
  if isNumericId usernameOrId then
    ([], some { userId := usernameOrId, username := none })
  else
    match env.normalizeHandle usernameOrId with
    | none =>
        ([Event.normCall usernameOrId,
          Event.errLine (p "err" ++ "Invalid username: " ++ usernameOrId)],
         none)
    | some handle =>
        let lk := env.getUserIdByUsername handle
        if !lk.success || !optTruthy lk.userId then
          ([Event.normCall usernameOrId, Event.lookupCall handle,
            Event.errLine (p "err" ++ "Failed to find user @" ++ handle ++
              ": " ++ lk.error.getD "Unknown error")],
           none)
        else
          ([Event.normCall usernameOrId, Event.lookupCall handle],
           some { userId := lk.userId.getD "", username := lk.username })

/-- The single-target `follow` action registered by
`registerFollowCommands` in follow.ts (lines 33–71). -/
def followAction (cred : CredResult) (env : NetEnv) (p : String → String)
    (usernameOrId : String) : CmdOut :=
  if !optTruthy cred.cookies.authToken || !optTruthy cred.cookies.ct0 then
    ⟨warnEvents cred p ++
       [Event.errLine (p "err" ++ "Missing required credentials")], 1⟩
  else
    let rEvts := (resolveUserId env p usernameOrId).1
    match (resolveUserId env p usernameOrId).2 with
    | none => ⟨warnEvents cred p ++ rEvts, 1⟩
    | some resolved =>
        let displayName :=
          if optTruthy resolved.username then "@" ++ resolved.username.getD ""
          else resolved.userId
        let r := env.followUser resolved.userId
        if r.success then
          ⟨warnEvents cred p ++ rEvts ++
             [Event.followCall resolved.userId,
              Event.outLine (p "ok" ++ "Now following " ++
                (if optTruthy r.username then "@" ++ r.username.getD ""
                 else displayName))], 0⟩
        else
          ⟨warnEvents cred p ++ rEvts ++
             [Event.followCall resolved.userId,
              Event.errLine (p "err" ++ "Failed to follow " ++ displayName ++
                ": " ++ optShow r.error)], 1⟩

/-- The single-target `unfollow` action registered by
`registerFollowCommands` in follow.ts (lines 73–111). -/
def unfollowAction (cred : CredResult) (env : NetEnv) (p : String → String)
    (usernameOrId : String) : CmdOut :=
  if !optTruthy cred.cookies.authToken || !optTruthy cred.cookies.ct0 then
    ⟨warnEvents cred p ++
       [Event.errLine (p "err" ++ "Missing required credentials")], 1⟩
  else
    let rEvts := (resolveUserId env p usernameOrId).1
    match (resolveUserId env p usernameOrId).2 with
    | none => ⟨warnEvents cred p ++ rEvts, 1⟩
    | some resolved =>
        let displayName :=
          if optTruthy resolved.username then "@" ++ resolved.username.getD ""
          else resolved.userId
        let r := env.unfollowUser resolved.userId
        if r.success then
          ⟨warnEvents cred p ++ rEvts ++
             [Event.unfollowCall resolved.userId,
              Event.outLine (p "ok" ++ "Unfollowed " ++
                (if optTruthy r.username then "@" ++ r.username.getD ""
                 else displayName))], 0⟩
        else
          ⟨warnEvents cred p ++ rEvts ++
             [Event.unfollowCall resolved.userId,
              Event.errLine (p "err" ++ "Failed to unfollow " ++
                displayName ++ ": " ++ optShow r.error)], 1⟩

/-! Concrete instances used for scenarios and witnesses. -/

/-- A credential result with both cookies present. -/
def credOk : CredResult := ⟨⟨some "token", some "csrf"⟩, []⟩

/-- A credential result missing `authToken`, with one warning. -/
def credMissing : CredResult := ⟨⟨none, some "csrf"⟩, ["stale cookie jar"]⟩

/-- A status-prefix function printing no prefix. -/
def pEmpty : String → String := fun _ => ""

/-- A failed lookup result. -/
def lookupFail : LookupResult := ⟨false, none, none, none⟩

/-- A successful anonymous mutation result. -/
def followOkAnon : MutationResult := ⟨true, none, none⟩

/-- Environment where every mutation succeeds (without a username) and no
handle normalizes. -/
def envAllFollowOk : NetEnv :=
  ⟨fun _ => none, fun _ => lookupFail, fun _ => followOkAnon,
   fun _ => followOkAnon⟩

/-- Environment where every mutation succeeds and reports the canonical
username `canonical`; no handle normalizes. -/
def envCanon : NetEnv :=
  ⟨fun _ => none, fun _ => lookupFail,
   fun _ => ⟨true, some "canonical", none⟩,
   fun _ => ⟨true, some "canonical", none⟩⟩

/-- Environment where `alice` normalizes to `alice` and looks up to user
ID `999`, and every mutation succeeds reporting the canonical username
`canonical`. -/
def envCanonFull : NetEnv :=
  ⟨fun s => if s = "alice" then some "alice" else none,
   fun h => if h = "alice" then ⟨true, some "999", some "alice", none⟩
            else lookupFail,
   fun _ => ⟨true, some "canonical", none⟩,
   fun _ => ⟨true, some "canonical", none⟩⟩

/-- Environment of the C9 scenario: `alice` normalizes to `alice`, which
looks up to user ID `999`; every follow succeeds. -/
def envAlice : NetEnv :=
  ⟨fun s => if s = "alice" then some "alice" else none,
   fun h => if h = "alice" then ⟨true, some "999", some "alice", none⟩
            else lookupFail,
   fun _ => followOkAnon, fun _ => followOkAnon⟩

/-! Helper lemmas about single batch-loop iterations. -/

/-- The record of a follow attempt always carries the attempted user ID. -/
theorem followAttempt_userId (env : NetEnv) (p : String → String)
    (json : Bool) (d u : String) (f : Bool) :
    (followAttempt env p json d u f).2.userId = some u := by
  cases h : (env.followUser u).success <;> simp [followAttempt, h]

/-- The record of a follow attempt succeeds iff the mutation did. -/
theorem followAttempt_success (env : NetEnv) (p : String → String)
    (json : Bool) (d u : String) (f : Bool) :
    (followAttempt env p json d u f).2.success = (env.followUser u).success := by
  cases h : (env.followUser u).success <;> simp [followAttempt, h]

/-- In `--json` mode a follow attempt emits only the mutation call. -/
theorem followAttempt_events_json (env : NetEnv) (p : String → String)
    (d u : String) (f : Bool) :
    (followAttempt env p true d u f).1 = [Event.followCall u] := by
  cases h : (env.followUser u).success <;> simp [followAttempt, h]

/-- A follow attempt emits no sleeps, no resolution calls, no stdout report
and its only network event is the mutation call. -/
theorem followAttempt_countP (env : NetEnv) (p : String → String)
    (json : Bool) (d u : String) (f : Bool) :
    (followAttempt env p json d u f).1.countP isDelayEvent = 0 ∧
    (followAttempt env p json d u f).1.countP isResolutionEvent = 0 ∧
    (followAttempt env p json d u f).1.countP isReportEvent = 0 := by
  cases h : (env.followUser u).success <;> cases json <;>
    simp [followAttempt, h, isDelayEvent, isResolutionEvent, isReportEvent,
      List.countP_cons]

/-- The trailing sleep block is one sleep when `multi`, nothing otherwise. -/
theorem delayEvts_countP (multi : Bool) :
    (delayEvts multi).countP isDelayEvent = (if multi then 1 else 0) ∧
    (delayEvts multi).countP isResolutionEvent = 0 ∧
    (delayEvts multi).countP isReportEvent = 0 ∧
    (delayEvts multi).countP isProgressLine = 0 := by
  cases multi <;>
    simp [delayEvts, isDelayEvent, isResolutionEvent, isReportEvent,
      isProgressLine, List.countP_cons]

/-- Credential warnings are stderr lines only. -/
theorem warnEvents_countP (cred : CredResult) (p : String → String) :
    (warnEvents cred p).countP isNetworkEvent = 0 ∧
    (warnEvents cred p).countP isReportEvent = 0 ∧
    (warnEvents cred p).countP isProgressLine = 0 := by
  refine ⟨?_, ?_, ?_⟩ <;>
    · rw [List.countP_eq_zero]
      intro e he
      simp only [warnEvents, List.mem_map] at he
      obtain ⟨w, -, rfl⟩ := he
      simp [isNetworkEvent, isReportEvent, isProgressLine]

/-- The credential guard of every handler is the negation of `credsOk`. -/
theorem creds_guard (cred : CredResult) :
    (!optTruthy cred.cookies.authToken || !optTruthy cred.cookies.ct0) =
      !credsOk cred := by
  simp [credsOk]

/-- C1: batch processing of N targets produces exactly N result records —
one per target, in input order — and the `failures` counter equals the
number of records whose `success` field is false (part_000 lines 28–92). -/
theorem batch_results_reconcile (env : NetEnv) (p : String → String)
    (json multi : Bool) (inputs : List String) :
    (runBatch env p json multi inputs).results =
      inputs.map (fun i => (processTarget env p json multi i).2) ∧
    (runBatch env p json multi inputs).results.length = inputs.length ∧
    (runBatch env p json multi inputs).failures =
      (runBatch env p json multi inputs).results.countP (fun r => !r.success) := by
  induction inputs with
  | nil => simp [runBatch]
  | cons a rest ih =>
      obtain ⟨ih1, ih2, ih3⟩ := ih
      refine ⟨by simp [runBatch, ih1], by simp [runBatch, ih2], ?_⟩
      simp only [runBatch, List.countP_cons, ih3]
      cases h : (processTarget env p json multi a).2.success <;> (simp [h]; try omega)

/-- C2: the exit code is 0 exactly when nothing failed: for the batch
command, iff credentials were present and `failures = 0`; for the
single-target follow and unfollow commands, iff credentials were present,
resolution produced a user ID, and the one mutation succeeded. -/
theorem exit_code_iff_success (cred : CredResult) (env : NetEnv)
    (p : String → String) (inputs : List String) (json : Bool) (s t : String) :
    ((registerFollowCommand cred env p inputs json).exitCode = 0 ↔
       (credsOk cred = true ∧
        (runBatch env p json (decide (inputs.length > 1)) inputs).failures = 0)) ∧
    ((followAction cred env p s).exitCode = 0 ↔
       (credsOk cred = true ∧
        ∃ rv, (resolveUserId env p s).2 = some rv ∧
          (env.followUser rv.userId).success = true)) ∧
    ((unfollowAction cred env p t).exitCode = 0 ↔
       (credsOk cred = true ∧
        ∃ rv, (resolveUserId env p t).2 = some rv ∧
          (env.unfollowUser rv.userId).success = true)) := by
  cases hc : credsOk cred
  · refine ⟨?_, ?_, ?_⟩ <;>
      simp [registerFollowCommand, followAction, unfollowAction, creds_guard, hc]
  · refine ⟨?_, ?_, ?_⟩
    · simp only [registerFollowCommand, creds_guard, hc, Bool.not_true,
        Bool.false_eq_true, if_false]
      cases hf : (runBatch env p json (decide (inputs.length > 1)) inputs).failures <;>
        simp [hf]
    · cases hr : (resolveUserId env p s).2 with
      | none => simp [followAction, creds_guard, hc, hr]
      | some rv =>
          cases hs : (env.followUser rv.userId).success <;>
            simp [followAction, creds_guard, hc, hr, hs]
    · cases hr : (resolveUserId env p t).2 with
      | none => simp [unfollowAction, creds_guard, hc, hr]
      | some rv =>
          cases hs : (env.unfollowUser rv.userId).success <;>
            simp [unfollowAction, creds_guard, hc, hr, hs]

/-- Sleep count of one loop iteration: one sleep iff more than one target
was supplied and the iteration reached the follow attempt (equivalently,
its record carries a user ID); the `continue` paths sleep never. -/
theorem processTarget_delay_count (env : NetEnv) (p : String → String)
    (json multi : Bool) (input : String) :
    countDelays (processTarget env p json multi input).1 =
      (if multi && (processTarget env p json multi input).2.userId.isSome
       then 1 else 0) := by
  cases hnum : isNumericId input
  · cases hn : env.normalizeHandle input with
    | none =>
        simp only [processTarget, hnum, Bool.false_eq_true, if_false, hn]
        cases json <;>
          simp [countDelays, isDelayEvent, List.countP_cons]
    | some handle =>
        simp only [processTarget, hnum, Bool.false_eq_true, if_false, hn]
        cases hg : (!(env.getUserIdByUsername handle).success ||
            !optTruthy (env.getUserIdByUsername handle).userId)
        · simp only [hg, Bool.false_eq_true, if_false, countDelays,
            List.countP_append, followAttempt_userId]
          rw [(followAttempt_countP env p json ("@" ++ handle)
                ((env.getUserIdByUsername handle).userId.getD "") false).1,
              (delayEvts_countP multi).1]
          cases json <;> cases multi <;>
            simp [isDelayEvent, List.countP_cons]
        · simp only [hg, if_true]
          cases json <;> cases multi <;>
            simp [countDelays, isDelayEvent, List.countP_cons]
  · simp only [processTarget, hnum, if_true, countDelays, List.countP_append,
      followAttempt_userId]
    rw [(followAttempt_countP env p json input input true).1,
        (delayEvts_countP multi).1]
    cases multi <;> simp

/-- The iteration's trace ends with the 500ms sleep exactly when more than
one target was supplied and the iteration reached the follow attempt. -/
theorem processTarget_delay_last (env : NetEnv) (p : String → String)
    (json multi : Bool) (input : String) :
    ((processTarget env p json multi input).1.getLast? =
        some (Event.delayMs 500)) ↔
      (multi = true ∧
       (processTarget env p json multi input).2.userId.isSome = true) := by
  cases hnum : isNumericId input
  · cases hn : env.normalizeHandle input with
    | none =>
        simp only [processTarget, hnum, Bool.false_eq_true, if_false, hn]
        cases json <;> simp [List.getLast?]
    | some handle =>
        simp only [processTarget, hnum, Bool.false_eq_true, if_false, hn]
        cases hg : (!(env.getUserIdByUsername handle).success ||
            !optTruthy (env.getUserIdByUsername handle).userId)
        · simp only [hg, Bool.false_eq_true, if_false, followAttempt_userId]
          cases hs : (env.followUser
              ((env.getUserIdByUsername handle).userId.getD "")).success <;>
            cases json <;> cases multi <;>
              simp [followAttempt, hs, delayEvts, List.getLast?]
        · simp only [hg, if_true]
          cases json <;> cases multi <;> simp [List.getLast?]
  · simp only [processTarget, hnum, if_true, followAttempt_userId]
    cases hs : (env.followUser input).success <;>
      cases json <;> cases multi <;>
        simp [followAttempt, hs, delayEvts, List.getLast?]

/-- C3 counterexample: with two numeric targets and an environment whose
follow mutation always succeeds, the batch command sleeps twice — once
after each target, including the last — where a delay occurring only
between consecutive targets would sleep exactly once (`length - 1`);
indeed the very last event of the run is a sleep. -/
theorem delay_after_last_target :
    countDelays (registerFollowCommand credOk envAllFollowOk pEmpty
        ["1", "2"] false).events = 2 ∧
    (registerFollowCommand credOk envAllFollowOk pEmpty
        ["1", "2"] false).events.getLast? = some (Event.delayMs 500) ∧
    ¬ (countDelays (registerFollowCommand credOk envAllFollowOk pEmpty
        ["1", "2"] false).events =
        (["1", "2"] : List String).length - 1) := by
  refine ⟨by decide, by decide, by decide⟩

/-- C3 amended: whenever more than one target is supplied, the batch loop
sleeps 500ms after each target that reached the follow attempt — including
the last one — and only after those; targets skipped by a resolution
failure (`continue`) are not followed by a sleep, and with at most one
target no sleep happens at all. -/
theorem delay_placement_amended (env : NetEnv) (p : String → String)
    (json multi : Bool) (inputs : List String) (input : String) :
    (countDelays (runBatch env p json multi inputs).events =
       (if multi
        then (runBatch env p json multi inputs).results.countP
               (fun r => r.userId.isSome)
        else 0)) ∧
    (((processTarget env p json multi input).1.getLast? =
        some (Event.delayMs 500)) ↔
      (multi = true ∧
       (processTarget env p json multi input).2.userId.isSome = true)) := by
  refine ⟨?_, processTarget_delay_last env p json multi input⟩
  induction inputs with
  | nil => cases multi <;> simp [runBatch, countDelays]
  | cons a rest ih =>
      simp only [runBatch, countDelays, List.countP_append, List.countP_cons]
      rw [show (runBatch env p json multi rest).events.countP isDelayEvent =
            countDelays (runBatch env p json multi rest).events from rfl, ih,
          show (processTarget env p json multi a).1.countP isDelayEvent =
            countDelays (processTarget env p json multi a).1 from rfl,
          processTarget_delay_count]
      cases h : (processTarget env p json multi a).2.userId.isSome <;>
        cases multi <;> (simp [h]; try omega)

/-- C4: an all-digit input is used directly as the user ID: the batch loop
records it verbatim as the target's user ID and its trace contains no
`normalizeHandle` call and no user-lookup call, and `resolveUserId` (shared
by the single-target follow and unfollow commands) returns it immediately
with an empty trace. -/
theorem numeric_id_direct (env : NetEnv) (p : String → String)
    (json multi : Bool) (s : String) (h : isNumericId s = true) :
    (processTarget env p json multi s).2.userId = some s ∧
    (processTarget env p json multi s).1.countP isResolutionEvent = 0 ∧
    resolveUserId env p s = ([], some ⟨s, none⟩) := by
  refine ⟨?_, ?_, ?_⟩
  · simp only [processTarget, h, if_true, followAttempt_userId]
  · simp only [processTarget, h, if_true, List.countP_append]
    rw [(followAttempt_countP env p json s s true).2.1,
        (delayEvts_countP multi).2.1]
  · simp [resolveUserId, h]

/-- C4 witness at the numeric input `123`. -/
theorem numeric_id_direct_witness :
    (processTarget envAllFollowOk pEmpty false false "123").2.userId =
      some "123" ∧
    (processTarget envAllFollowOk pEmpty false false "123").1.countP
      isResolutionEvent = 0 ∧
    resolveUserId envAllFollowOk pEmpty "123" = ([], some ⟨"123", none⟩) :=
  numeric_id_direct envAllFollowOk pEmpty false false "123" (by decide)

/-- C5: for every non-numeric input, handle normalization is attempted
before any network call — the very first event of the target's trace, both
in the batch loop and in `resolveUserId`, is the `normalizeHandle` call,
whatever normalization returns — and when normalization fails the batch
loop records the target as a failure with `Invalid handle format` — and
`resolveUserId` returns `none` after an error line — with no network call
ever made for that target. -/
theorem invalid_handle_no_network (env : NetEnv) (p : String → String)
    (json multi : Bool) (s : String) (hnum : isNumericId s = false) :
    (processTarget env p json multi s).1.head? = some (Event.normCall s) ∧
    (resolveUserId env p s).1.head? = some (Event.normCall s) ∧
    (env.normalizeHandle s = none →
      processTarget env p json multi s =
        (Event.normCall s ::
           (if json then [] else
             [Event.errLine (p "err" ++ "Invalid handle: " ++ s)]),
         ⟨s, none, false, some "Invalid handle format"⟩) ∧
      resolveUserId env p s =
        ([Event.normCall s,
          Event.errLine (p "err" ++ "Invalid username: " ++ s)], none) ∧
      (processTarget env p json multi s).1.countP isNetworkEvent = 0 ∧
      (resolveUserId env p s).1.countP isNetworkEvent = 0) := by
  refine ⟨?_, ?_, fun hn => ?_⟩
  · simp only [processTarget, hnum, Bool.false_eq_true, if_false]
    cases hn : env.normalizeHandle s with
    | none => rfl
    | some handle =>
        cases hg : (!(env.getUserIdByUsername handle).success ||
            !optTruthy (env.getUserIdByUsername handle).userId) <;>
          simp [hg]
  · simp only [resolveUserId, hnum, Bool.false_eq_true, if_false]
    cases hn : env.normalizeHandle s with
    | none => rfl
    | some handle =>
        cases hg : (!(env.getUserIdByUsername handle).success ||
            !optTruthy (env.getUserIdByUsername handle).userId) <;>
          simp [hg]
  · refine ⟨?_, ?_, ?_, ?_⟩ <;>
      · simp only [processTarget, resolveUserId, hnum, Bool.false_eq_true,
          if_false, hn]
        try (cases json <;> simp [isNetworkEvent, List.countP_cons])

/-- C5 witness at the non-numeric input `!!!`, which fails to normalize. -/
theorem invalid_handle_no_network_witness :
    (processTarget envAllFollowOk pEmpty false false "!!!").1.head? =
      some (Event.normCall "!!!") ∧
    (resolveUserId envAllFollowOk pEmpty "!!!").1.head? =
      some (Event.normCall "!!!") ∧
    processTarget envAllFollowOk pEmpty false false "!!!" =
      (Event.normCall "!!!" ::
         (if false then [] else
           [Event.errLine (pEmpty "err" ++ "Invalid handle: " ++ "!!!")]),
       ⟨"!!!", none, false, some "Invalid handle format"⟩) ∧
    resolveUserId envAllFollowOk pEmpty "!!!" =
      ([Event.normCall "!!!",
        Event.errLine (pEmpty "err" ++ "Invalid username: " ++ "!!!")],
       none) ∧
    (processTarget envAllFollowOk pEmpty false false "!!!").1.countP
      isNetworkEvent = 0 ∧
    (resolveUserId envAllFollowOk pEmpty "!!!").1.countP isNetworkEvent = 0 :=
  ⟨(invalid_handle_no_network envAllFollowOk pEmpty false false "!!!"
      (by decide)).1,
   (invalid_handle_no_network envAllFollowOk pEmpty false false "!!!"
      (by decide)).2.1,
   (invalid_handle_no_network envAllFollowOk pEmpty false false "!!!"
      (by decide)).2.2 rfl⟩

/-- C6: when the resolved cookies lack `authToken` or `ct0`, every handler
(batch follow, single follow, single unfollow) prints only its credential
warnings followed by the missing-credentials error and exits 1 — so no
target is processed and no network call is made. -/
theorem missing_credentials_abort (cred : CredResult) (env : NetEnv)
    (p : String → String) (inputs : List String) (json : Bool) (s t : String)
    (h : credsOk cred = false) :
    registerFollowCommand cred env p inputs json =
      ⟨warnEvents cred p ++
         [Event.errLine (p "err" ++ "Missing required credentials")], 1⟩ ∧
    followAction cred env p s =
      ⟨warnEvents cred p ++
         [Event.errLine (p "err" ++ "Missing required credentials")], 1⟩ ∧
    unfollowAction cred env p t =
      ⟨warnEvents cred p ++
         [Event.errLine (p "err" ++ "Missing required credentials")], 1⟩ ∧
    (registerFollowCommand cred env p inputs json).events.countP
      isNetworkEvent = 0 ∧
    (followAction cred env p s).events.countP isNetworkEvent = 0 ∧
    (unfollowAction cred env p t).events.countP isNetworkEvent = 0 := by
  have habort :
      registerFollowCommand cred env p inputs json =
        ⟨warnEvents cred p ++
           [Event.errLine (p "err" ++ "Missing required credentials")], 1⟩ ∧
      followAction cred env p s =
        ⟨warnEvents cred p ++
           [Event.errLine (p "err" ++ "Missing required credentials")], 1⟩ ∧
      unfollowAction cred env p t =
        ⟨warnEvents cred p ++
           [Event.errLine (p "err" ++ "Missing required credentials")], 1⟩ := by
    refine ⟨?_, ?_, ?_⟩ <;>
      simp [registerFollowCommand, followAction, unfollowAction,
        creds_guard, h]
  obtain ⟨h1, h2, h3⟩ := habort
  have hcnt : (warnEvents cred p ++
      [Event.errLine (p "err" ++ "Missing required credentials")]).countP
        isNetworkEvent = 0 := by
    rw [List.countP_append, (warnEvents_countP cred p).1]
    simp [isNetworkEvent, List.countP_cons]
  refine ⟨h1, h2, h3, ?_, ?_, ?_⟩
  · rw [h1]; exact hcnt
  · rw [h2]; exact hcnt
  · rw [h3]; exact hcnt

/-- C6 witness: credentials missing `authToken`, one warning. -/
theorem missing_credentials_abort_witness :
    registerFollowCommand credMissing envAllFollowOk pEmpty ["1"] false =
      ⟨warnEvents credMissing pEmpty ++
         [Event.errLine (pEmpty "err" ++ "Missing required credentials")],
       1⟩ ∧
    followAction credMissing envAllFollowOk pEmpty "1" =
      ⟨warnEvents credMissing pEmpty ++
         [Event.errLine (pEmpty "err" ++ "Missing required credentials")],
       1⟩ ∧
    unfollowAction credMissing envAllFollowOk pEmpty "1" =
      ⟨warnEvents credMissing pEmpty ++
         [Event.errLine (pEmpty "err" ++ "Missing required credentials")],
       1⟩ ∧
    (registerFollowCommand credMissing envAllFollowOk pEmpty ["1"]
        false).events.countP isNetworkEvent = 0 ∧
    (followAction credMissing envAllFollowOk pEmpty "1").events.countP
      isNetworkEvent = 0 ∧
    (unfollowAction credMissing envAllFollowOk pEmpty "1").events.countP
      isNetworkEvent = 0 :=
  missing_credentials_abort credMissing envAllFollowOk pEmpty ["1"] false
    "1" "1" (by decide)

/-- In `--json` mode a loop iteration writes nothing to stdout. -/
theorem processTarget_json_no_progress (env : NetEnv) (p : String → String)
    (multi : Bool) (input : String) :
    (processTarget env p true multi input).1.countP isProgressLine = 0 := by
  cases hnum : isNumericId input
  · cases hn : env.normalizeHandle input with
    | none =>
        simp [processTarget, hnum, hn, isProgressLine, List.countP_cons]
    | some handle =>
        simp only [processTarget, hnum, Bool.false_eq_true, if_false, hn]
        cases hg : (!(env.getUserIdByUsername handle).success ||
            !optTruthy (env.getUserIdByUsername handle).userId)
        · simp only [hg, Bool.false_eq_true, if_false]
          rw [List.countP_append, List.countP_append,
              followAttempt_events_json, (delayEvts_countP multi).2.2.2]
          simp [isProgressLine, List.countP_cons]
        · simp [hg, isProgressLine, List.countP_cons]
  · simp only [processTarget, hnum, if_true]
    rw [List.countP_append, followAttempt_events_json,
        (delayEvts_countP multi).2.2.2]
    simp [isProgressLine, List.countP_cons]

/-- A loop iteration never writes the aggregate JSON document. -/
theorem processTarget_no_report (env : NetEnv) (p : String → String)
    (json multi : Bool) (input : String) :
    (processTarget env p json multi input).1.countP isReportEvent = 0 := by
  cases hnum : isNumericId input
  · cases hn : env.normalizeHandle input with
    | none =>
        cases json <;>
          simp [processTarget, hnum, hn, isReportEvent, List.countP_cons]
    | some handle =>
        simp only [processTarget, hnum, Bool.false_eq_true, if_false, hn]
        cases hg : (!(env.getUserIdByUsername handle).success ||
            !optTruthy (env.getUserIdByUsername handle).userId)
        · simp only [hg, Bool.false_eq_true, if_false]
          rw [List.countP_append, List.countP_append,
              (followAttempt_countP env p json ("@" ++ handle)
                ((env.getUserIdByUsername handle).userId.getD "")
                false).2.2,
              (delayEvts_countP multi).2.2.1]
          simp [isReportEvent, List.countP_cons]
        · cases json <;> simp [hg, isReportEvent, List.countP_cons]
  · simp only [processTarget, hnum, if_true]
    rw [List.countP_append,
        (followAttempt_countP env p json input input true).2.2,
        (delayEvts_countP multi).2.2.1]

/-- The batch loop emits no event counted by `q` when no iteration does. -/
theorem runBatch_countP_zero (env : NetEnv) (p : String → String)
    (json multi : Bool) (inputs : List String) (q : Event → Bool)
    (h : ∀ input, (processTarget env p json multi input).1.countP q = 0) :
    (runBatch env p json multi inputs).events.countP q = 0 := by
  induction inputs with
  | nil => simp [runBatch]
  | cons a rest ih => simp [runBatch, List.countP_append, h a, ih]

/-- C7: in `--json` mode the batch command writes no per-target progress
line to stdout and (with credentials present) exactly one aggregate JSON
document; without `--json` it never writes the aggregate document. -/
theorem output_mode_separation (cred : CredResult) (env : NetEnv)
    (p : String → String) (inputs : List String) :
    (registerFollowCommand cred env p inputs true).events.countP
      isProgressLine = 0 ∧
    (registerFollowCommand cred env p inputs true).events.countP
      isReportEvent = (if credsOk cred then 1 else 0) ∧
    (registerFollowCommand cred env p inputs false).events.countP
      isReportEvent = 0 := by
  cases hc : credsOk cred
  · refine ⟨?_, ?_, ?_⟩ <;>
      · simp only [registerFollowCommand, creds_guard, hc, Bool.not_false,
          if_true, List.countP_append, Bool.false_eq_true, if_false]
        first
          | rw [(warnEvents_countP cred p).2.2]
          | rw [(warnEvents_countP cred p).2.1]
        simp [isProgressLine, isReportEvent, List.countP_cons]
  · refine ⟨?_, ?_, ?_⟩ <;>
      · simp only [registerFollowCommand, creds_guard, hc, Bool.not_true,
          Bool.false_eq_true, if_false, if_true, List.countP_append]
        rw [runBatch_countP_zero]
        · first
            | rw [(warnEvents_countP cred p).2.2]
            | rw [(warnEvents_countP cred p).2.1]
          simp [isProgressLine, isReportEvent, List.countP_cons]
        · intro input
          first
            | exact processTarget_json_no_progress env p
                (decide (inputs.length > 1)) input
            | exact processTarget_no_report env p true
                (decide (inputs.length > 1)) input
            | exact processTarget_no_report env p false
                (decide (inputs.length > 1)) input

/-- C8 counterexample: with one numeric target `5` and a follow mutation
that succeeds carrying the canonical username `canonical`, the batch
command's only stdout line is `Followed 5` — the supplied ID, not the
canonical `@canonical` the claim requires. -/
theorem batch_prints_supplied_name :
    (registerFollowCommand credOk envCanon pEmpty ["5"] false).events =
      [Event.followCall "5", Event.outLine "Followed 5"] ∧
    ¬ List.IsInfix ("@canonical".toList) ("Followed 5".toList) := by
  exact ⟨by decide, by decide⟩

/-- C8 amended: the single-target follow and unfollow commands do print
the mutation result's canonical username (as `@username`) in preference to
the supplied name, but the batch follow command prints the originally
supplied ID (numeric path) or normalized handle (handle path), ignoring
the username carried by the mutation result: its success line is fixed by
the input and the looked-up ID alone, whatever username the mutation
result reports. -/
theorem canonical_username_display (cred : CredResult) (env : NetEnv)
    (p : String → String) (s t tHandle hdl lid : String) (rv : Resolved)
    (u : String) (multi : Bool)
    (hc : credsOk cred = true)
    (hr : (resolveUserId env p s).2 = some rv)
    (hfs : (env.followUser rv.userId).success = true)
    (hfu : (env.followUser rv.userId).username = some u)
    (hus : (env.unfollowUser rv.userId).success = true)
    (huu : (env.unfollowUser rv.userId).username = some u)
    (hu : u ≠ "")
    (ht : isNumericId t = true)
    (hts : (env.followUser t).success = true)
    (hnn : isNumericId tHandle = false)
    (hnh : env.normalizeHandle tHandle = some hdl)
    (hlks : (env.getUserIdByUsername hdl).success = true)
    (hlku : (env.getUserIdByUsername hdl).userId = some lid)
    (hlid : lid ≠ "")
    (hbs : (env.followUser lid).success = true) :
    (followAction cred env p s).events.getLast? =
      some (Event.outLine (p "ok" ++ "Now following " ++ ("@" ++ u))) ∧
    (unfollowAction cred env p s).events.getLast? =
      some (Event.outLine (p "ok" ++ "Unfollowed " ++ ("@" ++ u))) ∧
    Event.outLine (p "ok" ++ "Followed " ++ t) ∈
      (processTarget env p false multi t).1 ∧
    Event.outLine (p "ok" ++ "Followed " ++ ("@" ++ hdl) ++
        (" (ID: " ++ lid ++ ")")) ∈
      (processTarget env p false multi tHandle).1 := by
  have hog : optTruthy (some u) = true := by simp [optTruthy, hu]
  refine ⟨?_, ?_, ?_, ?_⟩
  · simp [followAction, creds_guard, hc, hr, hfs, hfu, hog,
      List.getLast?_append_cons]
  · simp [unfollowAction, creds_guard, hc, hr, hus, huu, hog,
      List.getLast?_append_cons]
  · simp [processTarget, ht, followAttempt, hts, String.append_empty]
  · have holid : optTruthy (some lid) = true := by simp [optTruthy, hlid]
    simp [processTarget, hnn, hnh, hlks, holid, followAttempt, hlku, hbs]

/-- C8 amended witness: environment `envCanonFull`, with the numeric
target `5` for the single commands, the numeric batch target `7`, and the
handle batch target `alice` (normalizing to `alice`, ID `999`). -/
theorem canonical_username_display_witness :
    (followAction credOk envCanonFull pEmpty "5").events.getLast? =
      some (Event.outLine (pEmpty "ok" ++ "Now following " ++
        ("@" ++ "canonical"))) ∧
    (unfollowAction credOk envCanonFull pEmpty "5").events.getLast? =
      some (Event.outLine (pEmpty "ok" ++ "Unfollowed " ++
        ("@" ++ "canonical"))) ∧
    Event.outLine (pEmpty "ok" ++ "Followed " ++ "7") ∈
      (processTarget envCanonFull pEmpty false false "7").1 ∧
    Event.outLine (pEmpty "ok" ++ "Followed " ++ ("@" ++ "alice") ++
        (" (ID: " ++ "999" ++ ")")) ∈
      (processTarget envCanonFull pEmpty false false "alice").1 :=
  canonical_username_display credOk envCanonFull pEmpty "5" "7" "alice"
    "alice" "999" ⟨"5", none⟩ "canonical" false (by decide) rfl rfl rfl rfl
    rfl (by decide) (by decide) rfl (by decide) (by decide) (by decide)
    (by decide) (by decide) rfl

/-- C9: the documented scenario — batch input `["alice", "123456"]` where
`alice` normalizes to `alice` and looks up to user ID `999` and both follow
mutations succeed — yields exactly the report
`{results:[{input:"@alice",userId:"999",success:true},
{input:"123456",userId:"123456",success:true}], failures:0}` and exit 0,
with that report written to stdout in `--json` mode. -/
theorem batch_scenario_alice :
    (runBatch envAlice pEmpty true true ["alice", "123456"]).results =
      [⟨"@alice", some "999", true, none⟩,
       ⟨"123456", some "123456", true, none⟩] ∧
    (runBatch envAlice pEmpty true true ["alice", "123456"]).failures = 0 ∧
    (registerFollowCommand credOk envAlice pEmpty ["alice", "123456"]
        true).exitCode = 0 ∧
    Event.outReport
        [⟨"@alice", some "999", true, none⟩,
         ⟨"123456", some "123456", true, none⟩] 0 ∈
      (registerFollowCommand credOk envAlice pEmpty ["alice", "123456"]
          true).events := by
  exact ⟨by decide, by decide, by decide, by decide⟩

/-- C10: with credentials present, the `--json` batch command always puts
the aggregate report on stdout — the report event is in the trace no
matter how many targets failed, because it is emitted before the
failures-triggered exit. -/
theorem report_emitted_before_exit (cred : CredResult) (env : NetEnv)
    (p : String → String) (inputs : List String)
    (h : credsOk cred = true) :
    Event.outReport
        (runBatch env p true (decide (inputs.length > 1)) inputs).results
        (runBatch env p true (decide (inputs.length > 1)) inputs).failures ∈
      (registerFollowCommand cred env p inputs true).events := by
  simp [registerFollowCommand, creds_guard, h]

/-- C10 witness: a run in which every target fails (the sole target `!!!`
does not normalize) still carries its report event. -/
theorem report_emitted_before_exit_witness :
    Event.outReport
        (runBatch envAllFollowOk pEmpty true
          (decide ((["!!!"] : List String).length > 1)) ["!!!"]).results
        (runBatch envAllFollowOk pEmpty true
          (decide ((["!!!"] : List String).length > 1)) ["!!!"]).failures ∈
      (registerFollowCommand credOk envAllFollowOk pEmpty ["!!!"]
          true).events :=
  report_emitted_before_exit credOk envAllFollowOk pEmpty ["!!!"]
    (by decide)

end Bird
